import Mathlib

/-!
Shallow embedding of `arset_suhi_for_mrcog_st_v01_20221006.js`, a Google
Earth Engine (GEE) script computing mean Landsat 8 surface temperature over
a fixed area of interest.

Modelling choices:
* A pixel position is a longitude/latitude pair of rationals.
* A band is a partial per-pixel value map: `none` models a masked
  (invalid) pixel, `some v` a valid pixel holding value `v`.  This makes
  the per-band validity mask explicit, as the spec's data model requires.
* An image is a list of named bands plus the scalar metadata the script
  reads (`CLOUD_COVER`, acquisition day-of-year and year) and a Boolean
  recording whether the image footprint intersects the fixed area of
  interest (the geometric intersection test performed remotely by
  `filterBounds` is opaque to the script, so it is carried as image data).
* An image collection is a list of images; `map`/`filter` are list
  `map`/`filter`.
* Earth Engine primitive operations (`select`, `bitwiseAnd`, `or`, `not`,
  `updateMask`, `addBands` with overwrite, `clip`, the collection `mean`
  reducer) are not source code of this repository; they are modelled from
  their documented platform semantics, which the spec restates.
* Real-number pixel arithmetic is modelled over `ℚ` (exact); the script's
  decimal literals are exact decimal fractions.
-/

/-- A pixel position: (longitude, latitude). -/
abbrev Pos : Type := ℚ × ℚ

/-- A band: per-pixel optional value; `none` is a masked (invalid) pixel. -/
abbrev Band : Type := Pos → Option ℚ

/-- A geometry, reduced to its point-membership predicate (used by `clip`). -/
structure Geometry where
  contains : Pos → Bool

/-- An image: named bands plus the metadata the script reads.
`intersectsAOI` records the remote `filterBounds` intersection test against
the script's fixed area of interest. -/
structure Image where
  bands : List (String × Band)
  cloudCover : ℚ := 0
  dayOfYear : ℕ := 0
  year : ℕ := 0
  intersectsAOI : Bool := true

namespace Image

/-- Look up a band by name (first band with that name, as in GEE). -/
def getBand (img : Image) (n : String) : Option Band :=
  (img.bands.find? (fun nb => nb.1 == n)).map (fun nb => nb.2)

/-- Modelled from the spec: GEE `Image.select(names)` keeps the named
bands, in the order requested; metadata is preserved. -/
def select (img : Image) (names : List String) : Image :=
  { img with bands := names.filterMap (fun n => img.bands.find? (fun nb => nb.1 == n)) }

/-- Apply a pure function to every valid pixel of every band (masked
pixels stay masked); the common shape of GEE per-pixel math operators. -/
def mapValues (img : Image) (f : ℚ → ℚ) : Image :=
  { img with bands := img.bands.map (fun nb => (nb.1, fun p => (nb.2 p).map f)) }

/-- Modelled from the spec: GEE `Image.multiply` with a constant. -/
def multiply (img : Image) (c : ℚ) : Image :=
  img.mapValues (fun v => v * c)

/-- Modelled from the spec: GEE `Image.add` with a constant. -/
def add (img : Image) (c : ℚ) : Image :=
  img.mapValues (fun v => v + c)

/-- Modelled from the spec: GEE `Image.subtract` with a constant. -/
def subtract (img : Image) (c : ℚ) : Image :=
  img.mapValues (fun v => v - c)

/-- Modelled from the spec: GEE `Image.bitwiseAnd` with a constant —
per-pixel bitwise AND of the (integral) pixel value with `m`. -/
def bitwiseAnd (img : Image) (m : ℕ) : Image :=
  img.mapValues (fun v => ((v.floor.toNat &&& m : ℕ) : ℚ))

/-- Modelled from the spec: GEE `Image.or` — per-pixel logical or of two
images (1 if either value is nonzero, 0 otherwise); the result is masked
where either input is masked. -/
def or (a b : Image) : Image :=
  { a with bands := (List.zipWith
      (fun x y => (x.1, fun p =>
        match x.2 p, y.2 p with
        | some u, some v => some (if u ≠ 0 ∨ v ≠ 0 then (1 : ℚ) else 0)
        | _, _ => none))
      a.bands b.bands) }

/-- Modelled from the spec: GEE `Image.not` — per-pixel logical negation
(1 where the value is 0, 0 where it is nonzero); masked stays masked. -/
def not (img : Image) : Image :=
  { img with bands := (img.bands.map
      (fun nb => (nb.1, fun p => (nb.2 p).map (fun v => if v = 0 then (1 : ℚ) else 0)))) }

/-- Whether a mask image keeps the pixel at `p`: its (first) band must be
valid and nonzero there.  A masked or zero mask pixel invalidates. -/
def maskAt (m : Image) (p : Pos) : Bool :=
  match m.bands.head? with
  | some nb =>
    match nb.2 p with
    | some v => decide (v ≠ 0)
    | none => false
  | none => false

/-- Modelled from the spec: GEE `Image.updateMask` — a pixel of any band
stays valid only where it was valid and the mask image is valid and
nonzero. -/
def updateMask (img m : Image) : Image :=
  { img with bands := (img.bands.map
      (fun nb => (nb.1, fun p => if m.maskAt p then nb.2 p else none))) }

/-- Modelled from the spec: GEE `Image.addBands(src, null, true)` —
overwrite semantics: bands of `src` replace same-named bands of `dst` in
place; bands of `src` with fresh names are appended. -/
def addBands (dst src : Image) : Image :=
  { dst with bands :=
      (dst.bands.map (fun nb => (src.bands.find? (fun sb => sb.1 == nb.1)).getD nb)
       ++ src.bands.filter (fun sb => dst.bands.all (fun nb => !(nb.1 == sb.1)))) }

/-- Modelled from the spec: GEE `Image.clip(geometry)` — pixels outside
the geometry become invalid; pixels inside keep their value and mask. -/
def clip (img : Image) (g : Geometry) : Image :=
  { img with bands := (img.bands.map
      (fun nb => (nb.1, fun p => if g.contains p then nb.2 p else none))) }

end Image

/-- The image with no bands (result of aggregating an empty collection). -/
def emptyImage : Image := { bands := [] }

/-- The valid (unmasked) values of band `n` at position `p` across a
collection, in collection order. -/
def validValuesAt (imgs : List Image) (n : String) (p : Pos) : List ℚ :=
  imgs.filterMap (fun i => (i.getBand n).bind (fun b => b p))

/-- Modelled from the spec: GEE `ImageCollection.mean()` — per pixel and
per band, the arithmetic mean of the valid values across the collection;
a pixel with no valid contributing value is masked in the output.  The
band schema is taken from the first image (the script's collections are
homogeneous). -/
def collectionMean (imgs : List Image) : Image :=
  match imgs.head? with
  | none => emptyImage
  | some first =>
    { bands := (first.bands.map (fun nb => (nb.1, fun p =>
        let vs := validValuesAt imgs nb.1 p
        if vs.isEmpty then none else some (vs.sum / (vs.length : ℚ))))) }

/-! ## The script (translated from `src/arset_suhi_for_mrcog_st_v01_20221006.js`) -/

/-- Source: `var start_day = 182;` -/
def start_day : ℕ := 182

/-- Source: `var end_day = 243;` -/
def end_day : ℕ := 243

/-- Source: `var start_year = 2013;` -/
def start_year : ℕ := 2013

/-- Source: `var end_year = 2022;` -/
def end_year : ℕ := 2022

/-- The script's `aoi` rectangle (NW of Sandoval County to SE of Torrance
County): longitudes between -107.655533 and -105.265001, latitudes
between 34.233749 and 36.242138, as the point-membership predicate of the
polygon built at lines 50–55. -/
def aoi : Geometry :=
  ⟨fun p => decide ((-107.655533 : ℚ) ≤ p.1) && decide (p.1 ≤ (-105.265001 : ℚ))
         && decide ((34.233749 : ℚ) ≤ p.2) && decide (p.2 ≤ (36.242138 : ℚ))⟩

/-- Source: `var STUDYBOUNDS = aoi;` -/
def STUDYBOUNDS : Geometry := aoi

/-- Source: `ee.Filter.dayOfYear(start_day, end_day)` — keeps images whose
acquisition day-of-year lies in the inclusive range. -/
def DATE_RANGE (img : Image) : Bool :=
  decide (start_day ≤ img.dayOfYear) && decide (img.dayOfYear ≤ end_day)

/-- Source: `ee.Filter.calendarRange(start_year, end_year, 'year')` — keeps
images whose acquisition year lies in the inclusive range. -/
def YEAR_RANGE (img : Image) : Bool :=
  decide (start_year ≤ img.year) && decide (img.year ≤ end_year)

/-- The sensor bands the script uses: `var LC08_bands = ['ST_B10', 'QA_PIXEL'];` -/
def LC08_bands : List String := ["ST_B10", "QA_PIXEL"]

/-- The cloud-mask function (source lines 114–119):
```
function cloudMask(image) {
  var qa = image.select('QA_PIXEL');
  var mask = qa.bitwiseAnd(1 << 3)
    .or(qa.bitwiseAnd(1 << 4));
  return image.updateMask(mask.not());
}
``` -/
def cloudMask (image : Image) : Image :=
  let qa := image.select ["QA_PIXEL"]
  let mask := (qa.bitwiseAnd (1 <<< 3)).or (qa.bitwiseAnd (1 <<< 4))
  image.updateMask mask.not

/-- The collection pipeline of source lines 123–128, as a function of the
source catalog (the remote `LANDSAT/LC08/C02/T1_L2` collection):
select the two bands, filter by bounds, date range and year range, then
map the cloud mask. -/
def L8 (source : List Image) : List Image :=
  let selected := source.map (fun (i : Image) => i.select ["ST_B10", "QA_PIXEL"])
  let inBounds := selected.filter (fun i => Image.intersectsAOI i)
  let inDates := inBounds.filter DATE_RANGE
  let inYears := inDates.filter YEAR_RANGE
  inYears.map cloudMask

/-- Source: `var filtered_L8 = L8.filter(ee.Filter.lt('CLOUD_COVER', 20));`
(source line 131). -/
def filtered_L8 (source : List Image) : List Image :=
  (L8 source).filter (fun i => decide (i.cloudCover < 20))

/-- The scale-factor function (source lines 139–142):
```
function applyScaleFactors(image) {
  var thermalBands = image.select('ST_B10').multiply(0.00341802)
    .add(149.0).subtract(273.15).multiply(1.8).add(32);
  return image.addBands(thermalBands, null, true);
}
``` -/
def applyScaleFactors (image : Image) : Image :=
  let t1 := image.select ["ST_B10"]
  let t2 := t1.multiply (0.00341802 : ℚ)
  let t3 := t2.add (149.0 : ℚ)
  let t4 := t3.subtract (273.15 : ℚ)
  let t5 := t4.multiply (1.8 : ℚ)
  let thermalBands := t5.add (32 : ℚ)
  image.addBands thermalBands

/-- Source: `var landsatST = filtered_L8.map(applyScaleFactors);` (line 148). -/
def landsatST (source : List Image) : List Image :=
  (filtered_L8 source).map applyScaleFactors

/-- Source: `var mean_LandsatST = landsatST.mean();` (line 156). -/
def mean_LandsatST (source : List Image) : Image :=
  collectionMean (landsatST source)

/-- Source: `var one_band = mean_LandsatST.select('ST_B10');` (line 159). -/
def one_band (source : List Image) : Image :=
  (mean_LandsatST source).select ["ST_B10"]

/-- Source: `var clip_mean_ST = one_band.clip(STUDYBOUNDS);` (line 162). -/
def clip_mean_ST (source : List Image) : Image :=
  (one_band source).clip STUDYBOUNDS

/-- Source: `var values_ST = clip_mean_ST.select("ST_B10");` (line 168). -/
def values_ST (source : List Image) : Image :=
  (clip_mean_ST source).select ["ST_B10"]

/-- The per-value temperature conversion performed by `applyScaleFactors`:
digital count to Kelvin (×0.00341802, +149), to Celsius (−273.15), to
Fahrenheit (×1.8, +32). -/
def stScale (v : ℚ) : ℚ :=
  ((v * (0.00341802 : ℚ) + (149.0 : ℚ)) - (273.15 : ℚ)) * (1.8 : ℚ) + (32 : ℚ)

/-- The per-value cloud test performed by `cloudMask`'s mask image: true
iff bit 3 or bit 4 of the (integral) QA value is set. -/
def qaBitsSet (v : ℚ) : Bool :=
  decide (((v.floor.toNat &&& 8 : ℕ) : ℚ) ≠ 0) || decide (((v.floor.toNat &&& 16 : ℕ) : ℚ) ≠ 0)

/-! ## Band-lookup lemmas -/

theorem find?_map_of_fst (l : List (String × Band)) (f : String × Band → String × Band)
    (hf : ∀ x, (f x).1 = x.1) (n : String) :
    (l.map f).find? (fun nb => nb.1 == n) = (l.find? (fun nb => nb.1 == n)).map f := by
  induction l with
  | nil => rfl
  | cons x xs ih =>
    have hfx : ((f x).1 == n) = (x.1 == n) := by rw [hf]
    cases hx : (x.1 == n) <;> simp [List.find?_cons, hfx, hx, ih]

theorem find?_fst_eq {l : List (String × Band)} {n : String} {x : String × Band}
    (h : l.find? (fun nb => nb.1 == n) = some x) : x.1 = n := by
  have := List.find?_some h
  simpa using this

theorem getBand_eq_some {img : Image} {n : String} {b : Band}
    (h : img.getBand n = some b) :
    img.bands.find? (fun nb => nb.1 == n) = some (n, b) := by
  unfold Image.getBand at h
  rcases hfind : img.bands.find? (fun nb => nb.1 == n) with _ | x
  · rw [hfind] at h; exact absurd h (by simp)
  · rw [hfind] at h
    have hx1 : x.1 = n := find?_fst_eq hfind
    have hx2 : x.2 = b := by simpa using h
    have hx : x = (n, b) := by cases x; simp_all
    rw [← hx]; exact hfind

theorem getBand_mapValues (img : Image) (f : ℚ → ℚ) (n : String) :
    (img.mapValues f).getBand n =
      (img.getBand n).map (fun b => fun p => (b p).map f) := by
  unfold Image.getBand Image.mapValues
  dsimp only
  rw [find?_map_of_fst img.bands (fun nb => (nb.1, fun p => (nb.2 p).map f)) (fun x => rfl) n]
  cases hfind : img.bands.find? (fun nb => nb.1 == n) <;> simp [hfind]

theorem getBand_updateMask (img m : Image) (n : String) :
    (img.updateMask m).getBand n =
      (img.getBand n).map (fun b => fun p => if m.maskAt p then b p else none) := by
  unfold Image.getBand Image.updateMask
  dsimp only
  rw [find?_map_of_fst img.bands
      (fun nb => (nb.1, fun p => if m.maskAt p then nb.2 p else none)) (fun x => rfl) n]
  cases hfind : img.bands.find? (fun nb => nb.1 == n) <;> simp [hfind]

theorem getBand_clip (img : Image) (g : Geometry) (n : String) :
    (img.clip g).getBand n =
      (img.getBand n).map (fun b => fun p => if g.contains p then b p else none) := by
  unfold Image.getBand Image.clip
  dsimp only
  rw [find?_map_of_fst img.bands
      (fun nb => (nb.1, fun p => if g.contains p then nb.2 p else none)) (fun x => rfl) n]
  cases hfind : img.bands.find? (fun nb => nb.1 == n) <;> simp [hfind]

theorem select_single_bands {img : Image} {n : String} {x : String × Band}
    (h : img.bands.find? (fun nb => nb.1 == n) = some x) :
    (img.select [n]).bands = [x] := by
  simp [Image.select, h]

/-! ## Metadata preservation -/

@[simp] theorem select_cloudCover (img : Image) (ns : List String) :
    (img.select ns).cloudCover = img.cloudCover := rfl

@[simp] theorem select_dayOfYear (img : Image) (ns : List String) :
    (img.select ns).dayOfYear = img.dayOfYear := rfl

@[simp] theorem select_year (img : Image) (ns : List String) :
    (img.select ns).year = img.year := rfl

@[simp] theorem select_intersectsAOI (img : Image) (ns : List String) :
    (img.select ns).intersectsAOI = img.intersectsAOI := rfl

@[simp] theorem cloudMask_cloudCover (img : Image) :
    (cloudMask img).cloudCover = img.cloudCover := rfl

@[simp] theorem cloudMask_dayOfYear (img : Image) :
    (cloudMask img).dayOfYear = img.dayOfYear := rfl

@[simp] theorem cloudMask_year (img : Image) :
    (cloudMask img).year = img.year := rfl

@[simp] theorem cloudMask_intersectsAOI (img : Image) :
    (cloudMask img).intersectsAOI = img.intersectsAOI := rfl

@[simp] theorem applyScaleFactors_cloudCover (img : Image) :
    (applyScaleFactors img).cloudCover = img.cloudCover := rfl

/-! ## Characterizations of the script's two functions -/

/-- What `cloudMask` does to every band, given the image's `QA_PIXEL`
band: keep a pixel's value exactly where the QA value exists and has
neither bit 3 nor bit 4 set; mask it otherwise. -/
theorem cloudMask_getBand (img : Image) (qa : Band)
    (h : img.getBand "QA_PIXEL" = some qa) (n : String) :
    (cloudMask img).getBand n = (img.getBand n).map (fun b => fun p =>
      match qa p with
      | some v => if qaBitsSet v then none else b p
      | none => none) := by
  have hfind := getBand_eq_some h
  unfold cloudMask
  rw [getBand_updateMask]
  cases hb : img.getBand n with
  | none => rfl
  | some b =>
    simp only [Option.map_some']
    congr 1
    funext p
    have hsel : (img.select ["QA_PIXEL"]).bands = [("QA_PIXEL", qa)] :=
      select_single_bands hfind
    simp only [Image.maskAt, Image.not, Image.or, Image.bitwiseAnd, Image.mapValues, hsel]
    cases hq : qa p with
    | none => simp [hq]
    | some v =>
      simp only [List.map_cons, List.map_nil, List.zipWith_cons_cons, List.zipWith_nil_right,
        List.head?_cons, hq, Option.map_some', qaBitsSet]
      by_cases h8 : (v.floor.toNat &&& 8) = 0 <;>
        by_cases h16 : (v.floor.toNat &&& 16) = 0 <;>
          simp [h8, h16]

theorem find?_singleton_getD_fst (y : String × Band) (a : String) (bsc : Band) :
    ((([(a, bsc)] : List (String × Band)).find? (fun sb => sb.1 == y.1)).getD y).1 = y.1 := by
  cases hx : ((a : String) == y.1) <;> simp [List.find?_cons, hx]
  exact eq_of_beq hx

/-- Adding a single-band image with overwrite semantics: the named band is
replaced (or appended when absent); every other band is untouched. -/
theorem getBand_addBands_single (dst src : Image) (a : String) (bsc : Band)
    (hsrc : src.bands = [(a, bsc)]) (n : String) :
    (dst.addBands src).getBand n =
      if a = n then some bsc else dst.getBand n := by
  unfold Image.getBand Image.addBands
  dsimp only
  rw [hsrc, List.find?_append,
      find?_map_of_fst dst.bands
        (fun nb => (([(a, bsc)] : List (String × Band)).find? (fun sb => sb.1 == nb.1)).getD nb)
        (fun x => find?_singleton_getD_fst x a bsc) n]
  cases hfind : dst.bands.find? (fun nb => nb.1 == n) with
  | some y =>
    have hy : y.1 = n := find?_fst_eq hfind
    cases ha : ((a : String) == n) with
    | true =>
      have : a = n := eq_of_beq ha
      simp [List.find?_cons, hy, ha, this]
    | false =>
      have : ¬ a = n := by
        intro hc; rw [hc] at ha; simp at ha
      simp [List.find?_cons, hy, ha, this]
  | none =>
    cases ha : ((a : String) == n) with
    | true =>
      have han : a = n := eq_of_beq ha
      have hfilter : List.filter (fun sb => dst.bands.all (fun nb => !(nb.1 == sb.1)))
          [(a, bsc)] = [(a, bsc)] := by
        simp only [List.filter_cons, List.filter_nil]
        rw [if_pos]
        rw [List.all_eq_true]
        intro x hx
        have hne := List.find?_eq_none.mp hfind x hx
        show (!(x.1 == a)) = true
        rw [han]
        simpa using hne
      rw [hfilter]
      simp [List.find?_cons, ha, han]
    | false =>
      have han : ¬ a = n := by
        intro hc; rw [hc] at ha; simp at ha
      cases hq : dst.bands.all (fun nb => !(nb.1 == (a, bsc).1)) <;>
        simp [List.filter_cons, hq, List.find?_cons, ha, han]

/-- Adding an image with no bands changes nothing observable. -/
theorem getBand_addBands_empty (dst src : Image) (hsrc : src.bands = []) (n : String) :
    (dst.addBands src).getBand n = dst.getBand n := by
  unfold Image.getBand Image.addBands
  dsimp only
  rw [hsrc]
  simp

/-- The thermal-band computation inside `applyScaleFactors`, when the
image has an `ST_B10` band: a single band applying `stScale` pointwise. -/
theorem scaled_thermal_bands (img : Image) (b : Band)
    (hfind : img.bands.find? (fun nb => nb.1 == "ST_B10") = some ("ST_B10", b)) :
    (((((img.select ["ST_B10"]).multiply (0.00341802 : ℚ)).add (149.0 : ℚ)).subtract
        (273.15 : ℚ)).multiply (1.8 : ℚ)).add (32 : ℚ)
      = { img with bands := [("ST_B10", fun p => (b p).map stScale)] } := by
  have hsel : (img.select ["ST_B10"]).bands = [("ST_B10", b)] := select_single_bands hfind
  have hmeta : img.select ["ST_B10"] = { img with bands := [("ST_B10", b)] } := by
    unfold Image.select at hsel ⊢
    rw [show (List.filterMap (fun n => img.bands.find? (fun nb => nb.1 == n)) ["ST_B10"])
          = [("ST_B10", b)] from hsel]
  rw [hmeta]
  simp only [Image.multiply, Image.add, Image.subtract, Image.mapValues]
  congr 1
  simp only [List.map_cons, List.map_nil]
  refine congrArg (fun f => [(("ST_B10" : String), (f : Band))]) ?_
  funext p
  cases hb : b p <;> simp [stScale]

/-- The thermal-band computation inside `applyScaleFactors`, when the
image has no `ST_B10` band: no bands at all. -/
theorem scaled_thermal_bands_empty (img : Image)
    (hfind : img.bands.find? (fun nb => nb.1 == "ST_B10") = none) :
    ((((((img.select ["ST_B10"]).multiply (0.00341802 : ℚ)).add (149.0 : ℚ)).subtract
        (273.15 : ℚ)).multiply (1.8 : ℚ)).add (32 : ℚ)).bands = [] := by
  simp [Image.multiply, Image.add, Image.subtract, Image.mapValues, Image.select, hfind]

/-- What `applyScaleFactors` does to the `ST_B10` band when present:
pointwise `stScale`, masked pixels staying masked. -/
theorem applyScaleFactors_getBand_ST (img : Image) (b : Band)
    (h : img.getBand "ST_B10" = some b) :
    (applyScaleFactors img).getBand "ST_B10" = some (fun p => (b p).map stScale) := by
  have hfind := getBand_eq_some h
  show (img.addBands _).getBand "ST_B10" = _
  rw [getBand_addBands_single img _ "ST_B10" (fun p => (b p).map stScale)
      (by rw [scaled_thermal_bands img b hfind]) "ST_B10"]
  simp

/-- The function `applyScaleFactors` leaves every band other than `ST_B10` unchanged. -/
theorem applyScaleFactors_getBand_other (img : Image) (n : String) (hn : n ≠ "ST_B10") :
    (applyScaleFactors img).getBand n = img.getBand n := by
  show (img.addBands _).getBand n = _
  cases hfind : img.bands.find? (fun nb => nb.1 == "ST_B10") with
  | some x =>
    have hx : x.1 = "ST_B10" := find?_fst_eq hfind
    have hx' : x = ("ST_B10", x.2) := by cases x; simp_all
    rw [getBand_addBands_single img _ "ST_B10" (fun p => (x.2 p).map stScale)
        (by rw [scaled_thermal_bands img x.2 (hx' ▸ hfind)]) n]
    exact if_neg fun hc => hn hc.symm
  | none =>
    exact getBand_addBands_empty img _ (scaled_thermal_bands_empty img hfind) n

/-- On an (exactly represented) natural QA value, `qaBitsSet` is the test
of bits 3 and 4. -/
theorem qaBitsSet_natCast (q : ℕ) :
    qaBitsSet ((q : ℕ) : ℚ) = (q.testBit 3 || q.testBit 4) := by
  unfold qaBitsSet
  have hfloor : (((q : ℕ) : ℚ)).floor.toNat = q := by
    show (⌊((q : ℕ) : ℚ)⌋).toNat = q
    rw [Int.floor_natCast]
    simp
  rw [hfloor]
  have h8 : (q &&& 8 ≠ 0) ↔ q.testBit 3 := by
    rw [show (8 : ℕ) = 2 ^ 3 from rfl, Nat.and_two_pow]
    cases h : q.testBit 3 <;> simp [h]
  have h16 : (q &&& 16 ≠ 0) ↔ q.testBit 4 := by
    rw [show (16 : ℕ) = 2 ^ 4 from rfl, Nat.and_two_pow]
    cases h : q.testBit 4 <;> simp [h]
  cases hb3 : q.testBit 3 <;> cases hb4 : q.testBit 4 <;>
    simp [Nat.cast_eq_zero, h8, h16, hb3, hb4]

/-- Band lookup in the collection mean: if the first image has the band,
the mean image has it too, holding the per-pixel mean of valid values. -/
theorem collectionMean_getBand (first : Image) (rest : List Image) (n : String) (b0 : Band)
    (h : first.getBand n = some b0) :
    (collectionMean (first :: rest)).getBand n = some (fun p =>
      let vs := validValuesAt (first :: rest) n p
      if vs.isEmpty then none else some (vs.sum / (vs.length : ℚ))) := by
  have hfind := getBand_eq_some h
  unfold collectionMean Image.getBand
  simp only [List.head?_cons]
  rw [find?_map_of_fst first.bands
      (fun nb => (nb.1, fun p =>
        let vs := validValuesAt (first :: rest) nb.1 p
        if vs.isEmpty then none else some (vs.sum / (vs.length : ℚ)))) (fun x => rfl) n]
  rw [hfind]
  rfl

/-! ## Claims -/

/-- C1: for every image, `applyScaleFactors` replaces the thermal band
`ST_B10`, per pixel, with `((raw * 0.00341802 + 149.0) - 273.15) * 1.8 + 32`
(digital count to Kelvin, then Celsius, then Fahrenheit). -/
theorem applyScaleFactors_thermal_formula (image : Image) (b : Band)
    (h : image.getBand "ST_B10" = some b) :
    ∃ b', (applyScaleFactors image).getBand "ST_B10" = some b' ∧
      ∀ p raw, b p = some raw →
        b' p = some (((raw * (0.00341802 : ℚ) + (149.0 : ℚ)) - (273.15 : ℚ))
                       * (1.8 : ℚ) + (32 : ℚ)) := by
  refine ⟨_, applyScaleFactors_getBand_ST image b h, ?_⟩
  intro p raw hp
  simp [hp, stScale]

/-- A one-band example image whose `ST_B10` digital count is 20000
everywhere. -/
def stBandEx : Band := fun _ => some (20000 : ℚ)

/-- Example image holding `stBandEx`. -/
def exST : Image := { bands := [("ST_B10", stBandEx)] }

/-- Witness for C1 at digital count 20000. -/
theorem applyScaleFactors_thermal_formula_witness :
    ∃ b', (applyScaleFactors exST).getBand "ST_B10" = some b' ∧
      b' ((0 : ℚ), (0 : ℚ)) = some ((((20000 : ℚ) * (0.00341802 : ℚ) + (149.0 : ℚ))
        - (273.15 : ℚ)) * (1.8 : ℚ) + (32 : ℚ)) := by
  obtain ⟨b', hb', hval⟩ := applyScaleFactors_thermal_formula exST stBandEx rfl
  exact ⟨b', hb', hval ((0 : ℚ), (0 : ℚ)) 20000 rfl⟩

/-- C5 counterexample: at digital count 20000 the converted value is
-68.42128 °F (Kelvin 217.3604, Celsius -55.7896), not the Kelvin 249.36 /
Celsius -23.79 / Fahrenheit -10.82 stated by the claim; the discrepancy
(over 57 °F) is far beyond floating-point tolerance. -/
theorem scale_factor_at_20000_refutes :
    (∃ b, (applyScaleFactors exST).getBand "ST_B10" = some b ∧
      b ((0 : ℚ), (0 : ℚ)) = some (-68.42128 : ℚ)) ∧
    ((20000 : ℚ) * (0.00341802 : ℚ) + (149.0 : ℚ) ≠ (249.36 : ℚ)) ∧
    ((-68.42128 : ℚ) ≠ (-10.82 : ℚ)) ∧
    ((-10.82 : ℚ) - (-68.42128 : ℚ) > 57) := by
  refine ⟨⟨_, applyScaleFactors_getBand_ST exST stBandEx rfl, ?_⟩,
    by norm_num, by norm_num, by norm_num⟩
  show (stBandEx ((0 : ℚ), (0 : ℚ))).map stScale = some (-68.42128 : ℚ)
  simp [stBandEx, stScale]
  norm_num

/-- C5 (amended): for digital count d = 20000 the formula of
`applyScaleFactors` gives Kelvin 217.3604, Celsius -55.7896 and exactly
-68.42128 °F. -/
theorem scale_factor_at_20000 :
    ((20000 : ℚ) * (0.00341802 : ℚ) + (149.0 : ℚ) = (217.3604 : ℚ)) ∧
    ((217.3604 : ℚ) - (273.15 : ℚ) = (-55.7896 : ℚ)) ∧
    ((-55.7896 : ℚ) * (1.8 : ℚ) + (32 : ℚ) = (-68.42128 : ℚ)) ∧
    (∃ b, (applyScaleFactors exST).getBand "ST_B10" = some b ∧
      b ((0 : ℚ), (0 : ℚ)) = some (-68.42128 : ℚ)) := by
  refine ⟨by norm_num, by norm_num, by norm_num,
    ⟨_, applyScaleFactors_getBand_ST exST stBandEx rfl, ?_⟩⟩
  show (stBandEx ((0 : ℚ), (0 : ℚ))).map stScale = some (-68.42128 : ℚ)
  simp [stBandEx, stScale]
  norm_num

/-- C8: `applyScaleFactors` changes only the `ST_B10` band — every other
band (in particular `QA_PIXEL`) is returned unchanged — and every pixel
masked in the input `ST_B10` band remains masked in the output. -/
theorem applyScaleFactors_frame (image : Image) :
    (∀ n, n ≠ "ST_B10" → (applyScaleFactors image).getBand n = image.getBand n) ∧
    (∀ b b' p, image.getBand "ST_B10" = some b →
      (applyScaleFactors image).getBand "ST_B10" = some b' →
      b p = none → b' p = none) := by
  constructor
  · exact fun n hn => applyScaleFactors_getBand_other image n hn
  · intro b b' p hb hb' hnone
    rw [applyScaleFactors_getBand_ST image b hb] at hb'
    injection hb' with hfn
    rw [← hfn]
    simp [hnone]

/-- A thermal band masked away from the origin. -/
def stBandMasked : Band := fun p => if p = ((0 : ℚ), (0 : ℚ)) then some (100 : ℚ) else none

/-- A QA band that is clear everywhere. -/
def qaBandClear : Band := fun _ => some (((0 : ℕ) : ℚ))

/-- Example image with thermal and QA bands for the frame claims. -/
def exFrame : Image := { bands := [("ST_B10", stBandMasked), ("QA_PIXEL", qaBandClear)] }

/-- Witness for C8: on `exFrame`, `QA_PIXEL` is untouched and the masked
pixel (1,1) stays masked. -/
theorem applyScaleFactors_frame_witness :
    (applyScaleFactors exFrame).getBand "QA_PIXEL" = exFrame.getBand "QA_PIXEL" ∧
    (∃ b', (applyScaleFactors exFrame).getBand "ST_B10" = some b' ∧
      b' ((1 : ℚ), (1 : ℚ)) = none) := by
  have h := applyScaleFactors_frame exFrame
  refine ⟨h.1 "QA_PIXEL" (by decide), ?_⟩
  refine ⟨_, applyScaleFactors_getBand_ST exFrame stBandMasked rfl, ?_⟩
  refine h.2 stBandMasked _ ((1 : ℚ), (1 : ℚ)) rfl
    (applyScaleFactors_getBand_ST exFrame stBandMasked rfl) ?_
  simp [stBandMasked]

/-- C2: `cloudMask` masks every band's pixel where QA bit 3 (cloud) or
bit 4 (cloud shadow) is set, and leaves the pixel's value (hence its
validity) unchanged where neither bit is set. -/
theorem cloudMask_validity (image : Image) (qa : Band) (p : Pos) (q : ℕ)
    (hqa : image.getBand "QA_PIXEL" = some qa) (hv : qa p = some ((q : ℕ) : ℚ)) :
    ∀ n b, image.getBand n = some b →
      ∃ b', (cloudMask image).getBand n = some b' ∧
        ((q.testBit 3 ∨ q.testBit 4) → b' p = none) ∧
        (¬(q.testBit 3 ∨ q.testBit 4) → b' p = b p) := by
  intro n b hb
  have hcb := cloudMask_getBand image qa hqa n
  rw [hb] at hcb
  simp only [Option.map_some'] at hcb
  refine ⟨_, hcb, ?_, ?_⟩
  · intro hbits
    have hq : qaBitsSet ((q : ℕ) : ℚ) = true := by
      rw [qaBitsSet_natCast]
      rcases hbits with h | h <;> simp [h]
    show (match qa p with
          | some v => if qaBitsSet v then none else b p
          | none => none) = none
    rw [hv]
    simp [hq]
  · intro hbits
    have hq : qaBitsSet ((q : ℕ) : ℚ) = false := by
      rw [qaBitsSet_natCast]
      rw [not_or] at hbits
      simp [hbits.1, hbits.2]
    show (match qa p with
          | some v => if qaBitsSet v then none else b p
          | none => none) = b p
    rw [hv]
    simp [hq]

/-- A QA band reporting cloud (bit 3 set) everywhere. -/
def qaBandCloud : Band := fun _ => some (((8 : ℕ) : ℚ))

/-- Example image with a cloudy QA band. -/
def exCloud : Image := { bands := [("ST_B10", stBandEx), ("QA_PIXEL", qaBandCloud)] }

/-- Witness for C2: bit 3 set at the origin masks the thermal pixel. -/
theorem cloudMask_validity_witness :
    ∃ b', (cloudMask exCloud).getBand "ST_B10" = some b' ∧
      b' ((0 : ℚ), (0 : ℚ)) = none := by
  obtain ⟨b', hb', hset, _⟩ :=
    cloudMask_validity exCloud qaBandCloud ((0 : ℚ), (0 : ℚ)) 8 rfl rfl "ST_B10" stBandEx rfl
  exact ⟨b', hb', hset (Or.inl (by decide))⟩

/-- The keep/discard decision of `cloudMask`'s internal mask image at a
pixel. -/
def cmMask (X : Image) : Pos → Bool := fun p =>
  Image.maskAt (((X.select ["QA_PIXEL"]).bitwiseAnd (1 <<< 3)).or
    ((X.select ["QA_PIXEL"]).bitwiseAnd (1 <<< 4))).not p

theorem cloudMask_bands_eq (X : Image) :
    (cloudMask X).bands = X.bands.map (fun nb => (nb.1, fun p =>
      if cmMask X p then nb.2 p else none)) := rfl

theorem cmMask_eq (X : Image) (qx : Band)
    (hq : X.getBand "QA_PIXEL" = some qx) (p : Pos) :
    cmMask X p = (match qx p with
      | some v => !(qaBitsSet v)
      | none => false) := by
  have hfind := getBand_eq_some hq
  have hsel : (X.select ["QA_PIXEL"]).bands = [("QA_PIXEL", qx)] := select_single_bands hfind
  unfold cmMask
  simp only [Image.maskAt, Image.not, Image.or, Image.bitwiseAnd, Image.mapValues, hsel]
  cases hqp : qx p with
  | none => simp [hqp]
  | some v =>
    simp only [List.map_cons, List.map_nil, List.zipWith_cons_cons, List.zipWith_nil_right,
      List.head?_cons, hqp, Option.map_some', qaBitsSet]
    by_cases h8 : (v.floor.toNat &&& 8) = 0 <;>
      by_cases h16 : (v.floor.toNat &&& 16) = 0 <;>
        simp [h8, h16]

/-- C10: `cloudMask` is idempotent on any image with a `QA_PIXEL` band:
applying it twice yields exactly the same image (bands, values and
validity mask) as applying it once, because the mask is derived only from
the QA values, which `cloudMask` never alters (it can only mask them). -/
theorem cloudMask_idempotent (image : Image) (qa : Band)
    (hqa : image.getBand "QA_PIXEL" = some qa) :
    cloudMask (cloudMask image) = cloudMask image := by
  have hqC : (cloudMask image).getBand "QA_PIXEL" = some (fun p =>
      match qa p with
      | some v => if qaBitsSet v then none else qa p
      | none => none) := by
    have h := cloudMask_getBand image qa hqa "QA_PIXEL"
    rw [hqa] at h
    simp only [Option.map_some'] at h
    exact h
  have hm : ∀ p, cmMask (cloudMask image) p = cmMask image p := by
    intro p
    rw [cmMask_eq (cloudMask image) _ hqC p, cmMask_eq image qa hqa p]
    cases hqp : qa p with
    | none => simp
    | some v => cases hbits : qaBitsSet v <;> simp [hbits]
  have hbands : (cloudMask (cloudMask image)).bands = (cloudMask image).bands := by
    rw [cloudMask_bands_eq (cloudMask image), cloudMask_bands_eq image, List.map_map]
    apply List.map_congr_left
    intro nb _
    simp only [Function.comp]
    refine congrArg (fun f => (nb.1, (f : Band))) ?_
    funext p
    rw [hm p]
    cases hcm : cmMask image p <;> simp
  calc cloudMask (cloudMask image)
      = { cloudMask image with bands := (cloudMask (cloudMask image)).bands } := rfl
    _ = cloudMask image := by rw [hbands]

/-- Witness for C10 on a concrete cloudy image. -/
theorem cloudMask_idempotent_witness :
    cloudMask (cloudMask exCloud) = cloudMask exCloud :=
  cloudMask_idempotent exCloud qaBandCloud rfl

/-- C9: selecting `ST_B10` from an image that already holds exactly that
one band is the identity (so the script's second select at line 168, on
the already single-band clipped mean, changes nothing). -/
theorem select_single_idempotent (img : Image) (b : Band)
    (h : img.bands = [("ST_B10", b)]) : img.select ["ST_B10"] = img := by
  have hb : (img.select ["ST_B10"]).bands = img.bands := by
    simp [Image.select, h]
  calc img.select ["ST_B10"]
      = { img with bands := (img.select ["ST_B10"]).bands } := rfl
    _ = img := by rw [hb]

/-- Witness for C9 on a concrete one-band image. -/
theorem select_single_idempotent_witness :
    exST.select ["ST_B10"] = exST :=
  select_single_idempotent exST stBandEx rfl

/-- C3: at any fixed pixel, the temporal mean holds the arithmetic mean
of the valid values contributed by the collection; with no valid
contribution, the output pixel is masked (`none`), never a valid value. -/
theorem collectionMean_pixel (first : Image) (rest : List Image) (n : String) (b0 : Band)
    (h : first.getBand n = some b0) (p : Pos) :
    ∃ b, (collectionMean (first :: rest)).getBand n = some b ∧
      (validValuesAt (first :: rest) n p = [] → b p = none) ∧
      (∀ vs, validValuesAt (first :: rest) n p = vs → vs ≠ [] →
        b p = some (vs.sum / (vs.length : ℚ))) := by
  refine ⟨_, collectionMean_getBand first rest n b0 h, ?_, ?_⟩
  · intro hvs
    show (let vs := validValuesAt (first :: rest) n p
          if vs.isEmpty then none else some (vs.sum / (vs.length : ℚ))) = none
    simp [hvs]
  · intro vs hvs hne
    show (let ws := validValuesAt (first :: rest) n p
          if ws.isEmpty then none else some (ws.sum / (ws.length : ℚ)))
        = some (vs.sum / (vs.length : ℚ))
    rw [show validValuesAt (first :: rest) n p = vs from hvs]
    simp [List.isEmpty_iff, hne]

/-- A constant example thermal band holding value 10. -/
def stBandTen : Band := fun _ => some (10 : ℚ)

/-- Example image holding `stBandTen`. -/
def exMeanA : Image := { bands := [("ST_B10", stBandTen)] }

/-- Example image whose thermal band is masked everywhere. -/
def exMeanB : Image := { bands := [("ST_B10", fun _ => none)] }

/-- Witness for C3: one valid value 10 and one masked value average
to 10/1. -/
theorem collectionMean_pixel_witness :
    ∃ b, (collectionMean (exMeanA :: [exMeanB])).getBand "ST_B10" = some b ∧
      b ((0 : ℚ), (0 : ℚ)) = some (((10 : ℚ)) / (((1 : ℕ) : ℚ))) := by
  obtain ⟨b, hb, _, hsome⟩ :=
    collectionMean_pixel exMeanA [exMeanB] "ST_B10" stBandTen rfl ((0 : ℚ), (0 : ℚ))
  refine ⟨b, hb, ?_⟩
  have hv := hsome [(10 : ℚ)] rfl (by simp)
  rw [hv]
  norm_num

/-- C4: an image of the source catalog contributes to `filtered_L8`
exactly when it intersects the area of interest, its day-of-year lies in
[182, 243], its year lies in [2013, 2022], and its reported CLOUD_COVER
is strictly below 20; what the filtered collection holds for it is its
band-selected, cloud-masked version. -/
theorem filtered_L8_mem_iff (source : List Image) (img : Image) :
    img ∈ filtered_L8 source ↔
      ∃ i, i ∈ source ∧ i.intersectsAOI = true ∧
        (182 ≤ i.dayOfYear ∧ i.dayOfYear ≤ 243) ∧
        (2013 ≤ i.year ∧ i.year ≤ 2022) ∧
        i.cloudCover < 20 ∧
        img = cloudMask (i.select ["ST_B10", "QA_PIXEL"]) := by
  unfold filtered_L8 L8
  simp only [List.mem_filter, List.mem_map, DATE_RANGE, YEAR_RANGE, start_day, end_day,
    start_year, end_year, Bool.and_eq_true, decide_eq_true_eq]
  constructor
  · rintro ⟨⟨a, ⟨⟨⟨⟨i, hi, rfl⟩, hb⟩, hd⟩, hy⟩, rfl⟩, hcc⟩
    exact ⟨i, hi, by simpa using hb, by simpa using hd, by simpa using hy,
      by simpa using hcc, rfl⟩
  · rintro ⟨i, hi, hb, hd, hy, hcc, rfl⟩
    exact ⟨⟨i.select ["ST_B10", "QA_PIXEL"], ⟨⟨⟨⟨i, hi, rfl⟩, by simpa using hb⟩,
      by simpa using hd⟩, by simpa using hy⟩, rfl⟩, by simpa using hcc⟩

/-- An image passing every filter except that its CLOUD_COVER is exactly
the threshold 20. -/
def ex20 : Image :=
  { bands := [("ST_B10", stBandTen), ("QA_PIXEL", qaBandClear)],
    cloudCover := 20, dayOfYear := 200, year := 2020, intersectsAOI := true }

/-- C6 counterexample: `ex20` reports CLOUD_COVER exactly 20 and passes
the spatial/temporal filters (it is in `L8`), yet the cloud-cover
post-filter drops it — the claim that images at exactly the threshold
are retained is false. -/
theorem cloud_cover_20_dropped :
    ex20.cloudCover = 20 ∧ (L8 [ex20]).length = 1 ∧ filtered_L8 [ex20] = [] := by
  exact ⟨rfl, rfl, rfl⟩

/-- C6 (amended): the post-filter retains exactly the images whose
reported CLOUD_COVER is strictly below 20 (so it drops those with
CLOUD_COVER greater than or equal to 20; in particular an image reporting
exactly 20 is dropped). -/
theorem cloud_cover_filter_strict (source : List Image) (img : Image) :
    img ∈ filtered_L8 source ↔ img ∈ L8 source ∧ img.cloudCover < 20 := by
  simp [filtered_L8, List.mem_filter]

/-- C7: every valid pixel of the clipped mean raster lies inside the area
of interest; at every position outside it, the pixel is invalid. -/
theorem clip_mean_ST_containment (source : List Image) (n : String) (b : Band) (p : Pos)
    (h : (clip_mean_ST source).getBand n = some b) :
    (STUDYBOUNDS.contains p = false → b p = none) ∧
    ((b p).isSome → STUDYBOUNDS.contains p = true) := by
  unfold clip_mean_ST at h
  rw [getBand_clip] at h
  cases hb0 : (one_band source).getBand n with
  | none => rw [hb0] at h; exact absurd h (by simp)
  | some b0 =>
    rw [hb0] at h
    simp only [Option.map_some'] at h
    injection h with hfn
    constructor
    · intro hout
      rw [← hfn]
      simp [hout]
    · intro hsome
      cases hcc : STUDYBOUNDS.contains p
      · rw [← hfn] at hsome
        simp [hcc] at hsome
      · rfl

/-- An image passing every filter, used to exercise the full pipeline. -/
def exPass : Image :=
  { bands := [("ST_B10", stBandTen), ("QA_PIXEL", qaBandClear)],
    cloudCover := 5, dayOfYear := 200, year := 2020, intersectsAOI := true }

/-- Witness for C7: the origin (0°, 0°) lies outside the study rectangle,
so the clipped mean is masked there. -/
theorem clip_mean_ST_containment_witness :
    ∃ b, (clip_mean_ST [exPass]).getBand "ST_B10" = some b ∧
      b ((0 : ℚ), (0 : ℚ)) = none := by
  refine ⟨_, rfl, ?_⟩
  exact (clip_mean_ST_containment [exPass] "ST_B10" _ ((0 : ℚ), (0 : ℚ)) rfl).1
    (by norm_num [STUDYBOUNDS, aoi])
